import Mathlib

/-!
Verification of the payway-ts SDK (ABA PayWay payment gateway client).

This file gives a shallow embedding of the payload construction and signing
pipeline of `src/client.ts` (class `PayWayClient`), of the `trim` utility of
`src/utils.js`, and of the `execute` transport adapter, and proves the claimed
properties about them.

JavaScript values that flow through the builders (strings, numbers, booleans,
the structured deeplink record, and null/undefined) are modelled by the
inductive type `JsVal`; JavaScript objects used as ordered string-keyed records
are modelled by association lists in insertion order, with property assignment
modelled by `setField` (overwrite in place when the key exists, append
otherwise), exactly as JavaScript records behave under `Object.entries` /
`Object.values` iteration.

The cryptographic primitives used by `create_hash`
(`createHmac("sha512", key).update(data).digest("base64")`) are implemented
from their standards: SHA-512 (FIPS 180-4) over byte lists, HMAC (RFC 2104)
with the 128-byte SHA-512 block size, standard base64 with padding, and UTF-8
encoding of strings.  Machine 64-bit words are `Nat` reduced modulo `2 ^ 64`.
-/

/-! ## Byte-level primitives -/

/-- Big-endian byte rendering of `n` in exactly `k` bytes (most significant first). -/
def toBytesBE : Nat → Nat → List Nat
  | 0, _ => []
  | k + 1, n => toBytesBE k (n / 256) ++ [n % 256]

/-- Splits a list into consecutive chunks of size `sz` (fuel-driven structural recursion). -/
def chunksFuel (sz : Nat) : Nat → List Nat → List (List Nat)
  | 0, _ => []
  | _, [] => []
  | fuel + 1, l => l.take sz :: chunksFuel sz fuel (l.drop sz)

/-- Splits a byte list into consecutive chunks of size `sz`. -/
def chunks (sz : Nat) (l : List Nat) : List (List Nat) :=
  chunksFuel sz l.length l

/-- Concatenation of a list of byte lists. -/
def concatBytes : List (List Nat) → List Nat
  | [] => []
  | l :: ls => l ++ concatBytes ls

/-- UTF-8 encoding of a single character (standard encoding of its code point). -/
def utf8Char (c : Char) : List Nat :=
  let n := c.toNat
  if n < 0x80 then [n]
  else if n < 0x800 then
    [0xC0 ||| (n >>> 6), 0x80 ||| (n &&& 0x3F)]
  else if n < 0x10000 then
    [0xE0 ||| (n >>> 12), 0x80 ||| ((n >>> 6) &&& 0x3F), 0x80 ||| (n &&& 0x3F)]
  else
    [0xF0 ||| (n >>> 18), 0x80 ||| ((n >>> 12) &&& 0x3F),
     0x80 ||| ((n >>> 6) &&& 0x3F), 0x80 ||| (n &&& 0x3F)]

/-- UTF-8 encoding of a string as a byte list. -/
def utf8 (s : String) : List Nat :=
  concatBytes (s.data.map utf8Char)

/-! ## SHA-512 (FIPS 180-4) -/

/-- `2 ^ 64`, the modulus for 64-bit words. -/
def w64mod : Nat := 18446744073709551616

/-- 64-bit modular addition. -/
def wadd (a b : Nat) : Nat := (a + b) % w64mod

/-- 64-bit right rotation by `n` bits. -/
def rotr64 (x n : Nat) : Nat := ((x >>> n) ||| (x <<< (64 - n))) % w64mod

/-- 64-bit bitwise complement. -/
def not64 (x : Nat) : Nat := x ^^^ (w64mod - 1)

/-- SHA-512 `Ch` function. -/
def ch64 (x y z : Nat) : Nat := (x &&& y) ^^^ (not64 x &&& z)

/-- SHA-512 `Maj` function. -/
def maj64 (x y z : Nat) : Nat := (x &&& y) ^^^ (x &&& z) ^^^ (y &&& z)

/-- SHA-512 big sigma-0. -/
def bigSigma0 (x : Nat) : Nat := rotr64 x 28 ^^^ rotr64 x 34 ^^^ rotr64 x 39

/-- SHA-512 big sigma-1. -/
def bigSigma1 (x : Nat) : Nat := rotr64 x 14 ^^^ rotr64 x 18 ^^^ rotr64 x 41

/-- SHA-512 small sigma-0. -/
def smallSigma0 (x : Nat) : Nat := rotr64 x 1 ^^^ rotr64 x 8 ^^^ (x >>> 7)

/-- SHA-512 small sigma-1. -/
def smallSigma1 (x : Nat) : Nat := rotr64 x 19 ^^^ rotr64 x 61 ^^^ (x >>> 6)

/-- The 80 SHA-512 round constants. -/
def sha512K : List Nat :=
  [0x428A2F98D728AE22, 0x7137449123EF65CD, 0xB5C0FBCFEC4D3B2F, 0xE9B5DBA58189DBBC, 0x3956C25BF348B538,
   0x59F111F1B605D019, 0x923F82A4AF194F9B, 0xAB1C5ED5DA6D8118, 0xD807AA98A3030242, 0x12835B0145706FBE,
   0x243185BE4EE4B28C, 0x550C7DC3D5FFB4E2, 0x72BE5D74F27B896F, 0x80DEB1FE3B1696B1, 0x9BDC06A725C71235,
   0xC19BF174CF692694, 0xE49B69C19EF14AD2, 0xEFBE4786384F25E3, 0x0FC19DC68B8CD5B5, 0x240CA1CC77AC9C65,
   0x2DE92C6F592B0275, 0x4A7484AA6EA6E483, 0x5CB0A9DCBD41FBD4, 0x76F988DA831153B5, 0x983E5152EE66DFAB,
   0xA831C66D2DB43210, 0xB00327C898FB213F, 0xBF597FC7BEEF0EE4, 0xC6E00BF33DA88FC2, 0xD5A79147930AA725,
   0x06CA6351E003826F, 0x142929670A0E6E70, 0x27B70A8546D22FFC, 0x2E1B21385C26C926, 0x4D2C6DFC5AC42AED,
   0x53380D139D95B3DF, 0x650A73548BAF63DE, 0x766A0ABB3C77B2A8, 0x81C2C92E47EDAEE6, 0x92722C851482353B,
   0xA2BFE8A14CF10364, 0xA81A664BBC423001, 0xC24B8B70D0F89791, 0xC76C51A30654BE30, 0xD192E819D6EF5218,
   0xD69906245565A910, 0xF40E35855771202A, 0x106AA07032BBD1B8, 0x19A4C116B8D2D0C8, 0x1E376C085141AB53,
   0x2748774CDF8EEB99, 0x34B0BCB5E19B48A8, 0x391C0CB3C5C95A63, 0x4ED8AA4AE3418ACB, 0x5B9CCA4F7763E373,
   0x682E6FF3D6B2B8A3, 0x748F82EE5DEFB2FC, 0x78A5636F43172F60, 0x84C87814A1F0AB72, 0x8CC702081A6439EC,
   0x90BEFFFA23631E28, 0xA4506CEBDE82BDE9, 0xBEF9A3F7B2C67915, 0xC67178F2E372532B, 0xCA273ECEEA26619C,
   0xD186B8C721C0C207, 0xEADA7DD6CDE0EB1E, 0xF57D4F7FEE6ED178, 0x06F067AA72176FBA, 0x0A637DC5A2C898A6,
   0x113F9804BEF90DAE, 0x1B710B35131C471B, 0x28DB77F523047D84, 0x32CAAB7B40C72493, 0x3C9EBE0A15C9BEBC,
   0x431D67C49C100D4C, 0x4CC5D4BECB3E42B6, 0x597F299CFC657E2A, 0x5FCB6FAB3AD6FAEC, 0x6C44198C4A475817]

/-- The SHA-512 working state: eight 64-bit words. -/
structure Sha512State where
  a : Nat
  b : Nat
  c : Nat
  d : Nat
  e : Nat
  f : Nat
  g : Nat
  h : Nat
deriving DecidableEq, Repr

/-- SHA-512 initial hash value. -/
def sha512Init : Sha512State :=
  ⟨0x6A09E667F3BCC908, 0xBB67AE8584CAA73B, 0x3C6EF372FE94F82B,
   0xA54FF53A5F1D36F1, 0x510E527FADE682D1, 0x9B05688C2B3E6C1F,
   0x1F83D9ABFB41BD6B, 0x5BE0CD19137E2179⟩

/-- Groups a big-endian byte list into 64-bit words (8 bytes each). -/
def bytesToWordsBE : List Nat → List Nat
  | b1 :: b2 :: b3 :: b4 :: b5 :: b6 :: b7 :: b8 :: rest =>
      (((((((b1 * 256 + b2) * 256 + b3) * 256 + b4) * 256 + b5) * 256 + b6) * 256
        + b7) * 256 + b8) :: bytesToWordsBE rest
  | _ => []

/-- Extends the 16-word message schedule by `fuel` further words. -/
def scheduleLoop (w : List Nat) : Nat → List Nat
  | 0 => w
  | fuel + 1 =>
    let i := w.length
    let nw := wadd (wadd (smallSigma1 (w.getD (i - 2) 0)) (w.getD (i - 7) 0))
                   (wadd (smallSigma0 (w.getD (i - 15) 0)) (w.getD (i - 16) 0))
    scheduleLoop (w ++ [nw]) fuel

/-- One SHA-512 compression round with round constant `k` and schedule word `w`. -/
def sha512Round (s : Sha512State) (k w : Nat) : Sha512State :=
  let t1 := wadd s.h (wadd (bigSigma1 s.e) (wadd (ch64 s.e s.f s.g) (wadd k w)))
  let t2 := wadd (bigSigma0 s.a) (maj64 s.a s.b s.c)
  ⟨wadd t1 t2, s.a, s.b, s.c, wadd s.d t1, s.e, s.f, s.g⟩

/-- Runs the compression rounds over the zipped (constant, schedule word) list. -/
def sha512Rounds (s : Sha512State) : List (Nat × Nat) → Sha512State
  | [] => s
  | (k, w) :: rest => sha512Rounds (sha512Round s k w) rest

/-- Processes one 128-byte block, updating the hash state. -/
def sha512Block (h0 : Sha512State) (block : List Nat) : Sha512State :=
  let w := scheduleLoop (bytesToWordsBE block) 64
  let s := sha512Rounds h0 (sha512K.zip w)
  ⟨wadd h0.a s.a, wadd h0.b s.b, wadd h0.c s.c, wadd h0.d s.d,
   wadd h0.e s.e, wadd h0.f s.f, wadd h0.g s.g, wadd h0.h s.h⟩

/-- Folds the block function over all message blocks. -/
def sha512Blocks (h0 : Sha512State) : List (List Nat) → Sha512State
  | [] => h0
  | b :: bs => sha512Blocks (sha512Block h0 b) bs

/-- SHA-512 padding: `0x80`, zero bytes, then the 128-bit big-endian bit length. -/
def sha512pad (msg : List Nat) : List Nat :=
  let len := msg.length
  let padZeros := (128 - ((len + 17) % 128)) % 128
  msg ++ [0x80] ++ List.replicate padZeros 0 ++ toBytesBE 16 (len * 8)

/-- SHA-512 of a byte list, as a 64-byte list. -/
def sha512 (msg : List Nat) : List Nat :=
  let st := sha512Blocks sha512Init (chunks 128 (sha512pad msg))
  toBytesBE 8 st.a ++ toBytesBE 8 st.b ++ toBytesBE 8 st.c ++ toBytesBE 8 st.d ++
  toBytesBE 8 st.e ++ toBytesBE 8 st.f ++ toBytesBE 8 st.g ++ toBytesBE 8 st.h

/-! ## HMAC (RFC 2104) and base64 -/

/-- HMAC-SHA512 of `msg` under `key` (both byte lists); block size 128 bytes. -/
def hmacSha512 (key msg : List Nat) : List Nat :=
  let k0 := if 128 < key.length then sha512 key else key
  let k := k0 ++ List.replicate (128 - k0.length) 0
  let ipad := k.map (fun b => b ^^^ 0x36)
  let opad := k.map (fun b => b ^^^ 0x5c)
  sha512 (opad ++ sha512 (ipad ++ msg))

/-- The standard base64 alphabet. -/
def b64Alphabet : List Char :=
  "ABCDEFGHIJKLMNOPQRSTUVWXYZabcdefghijklmnopqrstuvwxyz0123456789+/".data

/-- The base64 digit for a 6-bit value. -/
def b64c (n : Nat) : Char := b64Alphabet.getD n 'A'

/-- Standard base64 encoding (with `=` padding) of a byte list. -/
def base64Encode : List Nat → String
  | [] => ""
  | [a] => String.mk [b64c (a / 4), b64c ((a % 4) * 16), '=', '=']
  | [a, b] => String.mk [b64c (a / 4), b64c ((a % 4) * 16 + b / 16), b64c ((b % 16) * 4), '=']
  | a :: b :: c :: rest =>
      String.mk [b64c (a / 4), b64c ((a % 4) * 16 + b / 16),
                 b64c ((b % 16) * 4 + c / 64), b64c (c % 64)]
        ++ base64Encode rest

/-! ## JavaScript value model -/

/-- A JavaScript value as it flows through the payload builders.  `vnull` stands
for both `null` and `undefined` (the source filters with `v != null`, which
drops exactly these two).  Numbers are modelled by their integer values;
`vdeeplink` models the structured `{ android_scheme, ios_scheme }` record
accepted for `return_deeplink`. -/
inductive JsVal where
  | vnull : JsVal
  | vstr : String → JsVal
  | vint : Int → JsVal
  | vbool : Bool → JsVal
  | vdeeplink : String → String → JsVal
deriving DecidableEq, Repr

/-- JavaScript `String(value)` coercion for the modelled values. -/
def jsString : JsVal → String
  | .vnull => "null"
  | .vstr s => s
  | .vint n => toString n
  | .vbool b => if b then "true" else "false"
  | .vdeeplink _ _ => "[object Object]"

/-- The character class removed by JavaScript `String.prototype.trim`:
ECMAScript WhiteSpace (tab, LF, VT, FF, CR, space, NBSP, BOM, and the Unicode
space separators) and line terminators (LS, PS). -/
def isJsWhitespace (c : Char) : Bool :=
  c.toNat = 9 || c.toNat = 10 || c.toNat = 11 || c.toNat = 12 || c.toNat = 13 ||
  c.toNat = 32 || c.toNat = 160 || c.toNat = 0x1680 ||
  (0x2000 ≤ c.toNat && c.toNat ≤ 0x200A) ||
  c.toNat = 0x2028 || c.toNat = 0x2029 || c.toNat = 0x202F || c.toNat = 0x205F ||
  c.toNat = 0x3000 || c.toNat = 0xFEFF

/-- JavaScript `String.prototype.trim`: removes leading and trailing
whitespace. -/
def jsTrim (s : String) : String :=
  String.mk (((s.data.dropWhile isJsWhitespace).reverse.dropWhile isJsWhitespace).reverse)

/-- Embeds `trim` of `src/utils.js`: trims strings, passes any other value
through unchanged. -/
def trim : JsVal → JsVal
  | .vstr s => .vstr (jsTrim s)
  | v => v

/-- JSON escaping of one character, as done by `JSON.stringify` for strings. -/
def jsonEscapeChar (c : Char) : List Char :=
  if c = '"' then ['\\', '"']
  else if c = '\\' then ['\\', '\\']
  else if c = Char.ofNat 10 then ['\\', 'n']
  else if c = Char.ofNat 13 then ['\\', 'r']
  else if c = Char.ofNat 9 then ['\\', 't']
  else if c = Char.ofNat 8 then ['\\', 'b']
  else if c = Char.ofNat 12 then ['\\', 'f']
  else if c.toNat < 32 then
    ['\\', 'u', '0', '0', "0123456789abcdef".data.getD (c.toNat / 16) '0',
     "0123456789abcdef".data.getD (c.toNat % 16) '0']
  else [c]

/-- A JSON string literal for `s` (quotes plus escaping). -/
def jsonStr (s : String) : String :=
  "\"" ++ String.mk (concatChars (s.data.map jsonEscapeChar)) ++ "\""
where
  concatChars : List (List Char) → List Char
    | [] => []
    | l :: ls => l ++ concatChars ls

/-- `JSON.stringify` of the structured deeplink record
`\x7b android_scheme, ios_scheme \x7d`, keys in declaration order. -/
def deeplinkJson (a i : String) : String :=
  "\x7b\"android_scheme\":" ++ jsonStr a ++ ",\"ios_scheme\":" ++ jsonStr i ++ "\x7d"

/-- `Buffer.from(d).toString("base64")`: base64 of the UTF-8 bytes of `d`. -/
def base64s (d : String) : String := base64Encode (utf8 d)

/-! ## The client and the signing pipeline (`src/client.ts`) -/

/-- The `PayWayClient` constructor state: `base_url`, `merchant_id`, `api_key`
(all immutable strings). -/
structure Client where
  base_url : String
  merchant_id : String
  api_key : String
deriving DecidableEq, Repr

/-- Embeds `create_hash`: joins the values with no separator and returns the
base64 of the HMAC-SHA512 of the result under the client's `api_key`. -/
def create_hash (c : Client) (values : List String) : String :=
  base64Encode (hmacSha512 (utf8 c.api_key) (utf8 (String.join values)))

/-- A build-time date, as read from the system clock by `new Date()`. -/
structure Date where
  year : Nat
  month : Nat
  day : Nat
  hour : Nat
  minute : Nat
  second : Nat
deriving DecidableEq, Repr

/-- Zero-pads a number to at least two digits. -/
def pad2 (n : Nat) : String := if n < 10 then "0" ++ toString n else toString n

/-- Zero-pads a number to at least four digits. -/
def pad4 (n : Nat) : String :=
  if n < 10 then "000" ++ toString n
  else if n < 100 then "00" ++ toString n
  else if n < 1000 then "0" ++ toString n
  else toString n

/-- Embeds date-fns `format(date, "yyyyMMddHHmmss")`. -/
def formatTs (d : Date) : String :=
  pad4 d.year ++ pad2 d.month ++ pad2 d.day ++ pad2 d.hour ++ pad2 d.minute ++ pad2 d.second

/-! JavaScript records with string keys iterate in insertion order; we model
them as association lists and property assignment as `setField`. -/

/-- Whether the record has an entry for key `k`. -/
def hasKey (fs : List (String × String)) (k : String) : Bool :=
  fs.any (fun kv => kv.1 == k)

/-- JavaScript property assignment `fs[k] = v` on an ordered record: overwrite
in place when the key exists, append otherwise. -/
def setField (fs : List (String × String)) (k v : String) : List (String × String) :=
  if hasKey fs k then fs.map (fun kv => if kv.1 == k then (k, v) else kv)
  else fs ++ [(k, v)]

/-- JavaScript property read `fs[k]` on an ordered record. -/
def lookupField (fs : List (String × String)) (k : String) : Option String :=
  (fs.find? (fun kv => kv.1 == k)).map (fun kv => kv.2)

/-- The `for (const [key, value] of Object.entries(body)) fields[key] = String(value)`
loop of `create_payload`. -/
def addFields (fs : List (String × String)) : List (String × JsVal) → List (String × String)
  | [] => fs
  | (k, v) :: rest => addFields (setField fs k (jsString v)) rest

/-- Embeds the private `create_payload` of `src/client.ts`: filters out
null/undefined values (`v != null`), formats the request time, hashes
`[req_time, merchant_id, ...String(values)]`, then assembles the record
`req_time, merchant_id, stringified body fields` and finally assigns the
`hash` key. -/
def create_payload (c : Client) (body : List (String × JsVal)) (d : Date) :
    List (String × String) :=
  setField
    (addFields [("req_time", formatTs d), ("merchant_id", c.merchant_id)]
      (body.filter (fun kv => kv.2 ≠ JsVal.vnull)))
    "hash"
    (create_hash c ([formatTs d, c.merchant_id] ++
      (body.filter (fun kv => kv.2 ≠ JsVal.vnull)).map (fun kv => jsString kv.2)))

/-! ## Builder parameter records and the three build methods -/

/-- The `CreateTransactionParams` record of `src/types.ts` (every field is
optional in the source; `vnull` encodes an omitted or null field). -/
structure CreateTransactionParams where
  tran_id : JsVal
  payment_option : JsVal
  amount : JsVal
  currency : JsVal
  return_url : JsVal
  return_deeplink : JsVal
  continue_success_url : JsVal
  firstname : JsVal
  lastname : JsVal
  email : JsVal
  phone : JsVal
  items : JsVal
  shipping : JsVal
  cancel_url : JsVal
  skip_success_page : JsVal
  custom_fields : JsVal
  return_params : JsVal
  payment_gate : JsVal
  payout : JsVal
  additional_params : JsVal
  lifetime : JsVal
  google_play_token : JsVal
  type : JsVal
  view_type : JsVal
deriving DecidableEq, Repr

/-- Parameters with every field absent. -/
def noParams : CreateTransactionParams :=
  ⟨.vnull, .vnull, .vnull, .vnull, .vnull, .vnull, .vnull, .vnull, .vnull, .vnull,
   .vnull, .vnull, .vnull, .vnull, .vnull, .vnull, .vnull, .vnull, .vnull, .vnull,
   .vnull, .vnull, .vnull, .vnull⟩

/-- The URL-processing step of `buildTransactionPayload` for `return_url`,
`cancel_url` and `continue_success_url`: base64-encode when the value is a
string, pass through otherwise. -/
def processUrl : JsVal → JsVal
  | .vstr s => .vstr (base64s s)
  | v => v

/-- The processing step for `return_deeplink`: base64-encode a string;
JSON-serialize then base64-encode the structured record; pass through
otherwise. -/
def processDeeplink : JsVal → JsVal
  | .vstr s => .vstr (base64s s)
  | .vdeeplink a i => .vstr (base64s (deeplinkJson a i))
  | v => v

/-- The ordered body passed by `buildTransactionPayload` to `create_payload`
(source comment: "order matters for hash generation"). -/
def txBody (p : CreateTransactionParams) : List (String × JsVal) :=
  [("tran_id", p.tran_id),
   ("amount", p.amount),
   ("items", p.items),
   ("shipping", p.shipping),
   ("firstname", trim p.firstname),
   ("lastname", trim p.lastname),
   ("email", trim p.email),
   ("phone", trim p.phone),
   ("type", p.type),
   ("payment_option", p.payment_option),
   ("return_url", processUrl p.return_url),
   ("cancel_url", processUrl p.cancel_url),
   ("continue_success_url", processUrl p.continue_success_url),
   ("return_deeplink", processDeeplink p.return_deeplink),
   ("currency", p.currency),
   ("custom_fields", p.custom_fields),
   ("return_params", p.return_params),
   ("payout", p.payout),
   ("lifetime", p.lifetime),
   ("additional_params", p.additional_params),
   ("google_play_token", p.google_play_token),
   ("skip_success_page", p.skip_success_page)]

/-- The result record `\x7b fields, hash, url, method \x7d` of every build
method. -/
structure PayloadBuilderResponse where
  fields : List (String × String)
  hash : String
  url : String
  method : String
deriving DecidableEq, Repr

/-- The two `if (... != null)` assignments performed by `buildTransactionPayload`
after hash generation: `fields.view_type = view_type` and `fields.type = type`. -/
def addPostSignFields (p : CreateTransactionParams) (fs : List (String × String)) :
    List (String × String) :=
  if p.type ≠ JsVal.vnull then
    setField
      (if p.view_type ≠ JsVal.vnull then setField fs "view_type" (jsString p.view_type) else fs)
      "type" (jsString p.type)
  else
    (if p.view_type ≠ JsVal.vnull then setField fs "view_type" (jsString p.view_type) else fs)

/-- The final `fields` record of `buildTransactionPayload`. -/
def txFields (c : Client) (p : CreateTransactionParams) (d : Date) :
    List (String × String) :=
  addPostSignFields p (create_payload c (txBody p) d)

/-- Embeds `buildTransactionPayload`: processes the URL-bearing parameters,
builds the signed field record via `create_payload`, then adds `view_type`
and reassigns `type` after hash generation, and returns the payload with the
purchase endpoint. -/
def buildTransactionPayload (c : Client) (p : CreateTransactionParams) (d : Date) :
    PayloadBuilderResponse :=
  { fields := txFields c p d,
    hash := (lookupField (txFields c p d) "hash").getD "",
    url := c.base_url ++ "api/payment-gateway/v1/payments/purchase",
    method := "POST" }

/-- Embeds `buildCheckTransactionPayload`. -/
def buildCheckTransactionPayload (c : Client) (tran_id : String) (d : Date) :
    PayloadBuilderResponse :=
  { fields := create_payload c [("tran_id", JsVal.vstr tran_id)] d,
    hash := (lookupField (create_payload c [("tran_id", JsVal.vstr tran_id)] d) "hash").getD "",
    url := c.base_url ++ "api/payment-gateway/v1/payments/check-transaction",
    method := "POST" }

/-- The five `TransactionListParams` fields read by `buildTransactionListPayload`
(the record in `src/types.ts` declares further `limit_`-prefixed fields, but the
builder destructures only these). -/
structure TransactionListParams where
  from_date : JsVal
  to_date : JsVal
  from_amount : JsVal
  to_amount : JsVal
  status : JsVal
deriving DecidableEq, Repr

/-- The ordered body passed by `buildTransactionListPayload` to `create_payload`. -/
def listBody (p : TransactionListParams) : List (String × JsVal) :=
  [("from_date", p.from_date),
   ("to_date", p.to_date),
   ("from_amount", p.from_amount),
   ("to_amount", p.to_amount),
   ("status", p.status)]

/-- Embeds `buildTransactionListPayload`. -/
def buildTransactionListPayload (c : Client) (p : TransactionListParams) (d : Date) :
    PayloadBuilderResponse :=
  { fields := create_payload c (listBody p) d,
    hash := (lookupField (create_payload c (listBody p) d) "hash").getD "",
    url := c.base_url ++ "api/payment-gateway/v1/payments/transaction-list",
    method := "POST" }

/-! ## The execution adapter (`execute` of `src/client.ts`) -/

/-- An HTTP response as observed by `execute` through `fetch`: status code and
text, the `content-type` header, the body text, and whether the body parses as
JSON (the outcome of `response.json()` in the unknown-content-type branch). -/
structure HttpResponse where
  status : Nat
  statusText : String
  contentType : String
  body : String
  jsonParses : Bool
deriving DecidableEq, Repr

/-- `Response.ok` of the fetch API: status in the range 200–299. -/
def respOk (r : HttpResponse) : Bool := 200 ≤ r.status && r.status ≤ 299

/-- The distinct `throw new Error(...)` sites of `execute`, tagged by the error
kind each one stands for in the design's error taxonomy; each carries the
thrown message. -/
inductive ExecError where
  | unsupportedOperation : String → ExecError
  | httpStatusError : String → ExecError
  | unexpectedHtml : String → ExecError
  | unexpectedContentType : String → ExecError
deriving DecidableEq, Repr

/-- A successfully classified response: parsed JSON (represented by its text)
or raw text. -/
inductive ExecResult where
  | json : String → ExecResult
  | text : String → ExecResult
deriving DecidableEq, Repr

/-- Character-list prefix test. -/
def startsWithList : List Char → List Char → Bool
  | [], _ => true
  | _ :: _, [] => false
  | a :: as, b :: bs => a == b && startsWithList as bs

/-- Character-list substring test. -/
def hasInfixList (p : List Char) : List Char → Bool
  | [] => startsWithList p []
  | s =>
    match s with
    | [] => false
    | _ :: rest => startsWithList p s || hasInfixList p rest

/-- JavaScript `String.prototype.includes`. -/
def strIncludes (s pat : String) : Bool := hasInfixList pat.data s.data

/-- The message of the abapay server-to-server guard in `execute`. -/
def abapayGuardMsg : String :=
  "Cannot execute server-to-server call with payment_option \"abapay\". " ++
  "ABA PayWay returns HTML for abapay which should be displayed via client-side form submission. " ++
  "Use buildTransactionPayload() and create a form in the browser instead. " ++
  "If you really need to get the HTML on the server, pass \x7b allowHtml: true \x7d."

/-- The message of the HTML-without-opt-in branch in `execute`. -/
def htmlRejectMsg : String :=
  "Received HTML response but expected JSON. " ++
  "This usually means payment_option \"abapay\" was used, which returns an HTML checkout page. " ++
  "Use client-side form submission for abapay payments. " ++
  "If you intentionally want the HTML, pass \x7b allowHtml: true \x7d."

/-- A transport double: given the target URL, the HTTP method and the form
fields, it produces the HTTP response. -/
def Transport : Type := String → String → List (String × String) → HttpResponse

/-- Embeds `execute`: the abapay guard (before any network call), the non-2xx
status check, then classification by content type.  The second component of the
result counts the HTTP requests performed. -/
def execute (t : Transport) (payload : PayloadBuilderResponse) (allowHtml : Bool) :
    Except ExecError ExecResult × Nat :=
  if lookupField payload.fields "payment_option" = some "abapay" ∧ allowHtml = false then
    (.error (.unsupportedOperation abapayGuardMsg), 0)
  else
    let r := t payload.url payload.method payload.fields
    if respOk r = false then
      (.error (.httpStatusError ("HTTP error! status: " ++ toString r.status)), 1)
    else if strIncludes r.contentType "application/json" then
      (.ok (.json r.body), 1)
    else if strIncludes r.contentType "text/html" then
      if allowHtml = false then (.error (.unexpectedHtml htmlRejectMsg), 1)
      else (.ok (.text r.body), 1)
    else
      if r.jsonParses then (.ok (.json r.body), 1)
      else if allowHtml = false then
        (.error (.unexpectedContentType ("Unexpected content-type: " ++ r.contentType ++
          ". Response is not JSON and allowHtml is false.")), 1)
      else (.ok (.text r.body), 1)

/-! ## Pre-authorization builders (modelled from the spec)

The repository documents three pre-authorization build methods
(`buildCompletePreAuthPayload`, `buildCompletePreAuthWithPayoutPayload`,
`buildCancelPreAuthPayload`) and an optional fourth constructor argument
`rsa_public_key` — in its README, in `docs/pre-authorization.md` and in the
parameter records of `src/types.ts` — but their implementation is not among
the source files; only these declarations, documentation and examples are.
The definitions below are therefore modelled from the spec (§3, §4.1, §4.2,
§7). -/

/-- Modelled from the spec: a client whose credentials extend the implemented
`Client` with the optional asymmetric (RSA) public key that the documented
constructor accepts as fourth argument and that pre-authorization operations
require. -/
structure PreAuthClient where
  client : Client
  rsa_public_key : Option String
deriving DecidableEq, Repr

/-- Modelled from the spec: the builder-level error taxonomy entry
`ConfigurationError` — required credential missing for the requested
operation. -/
inductive BuildError where
  | configurationError : String → BuildError
deriving DecidableEq, Repr

/-- Modelled from the spec: chunked asymmetric encryption — the plaintext is
split into successive chunks of at most 117 bytes, each chunk is encrypted
independently by the asymmetric primitive `encryptChunk` under the public key,
and the ciphertext chunks are concatenated.  The primitive itself is a
parameter: this system never decrypts and the spec fixes only the chunking
layout. -/
def encryptChunked (encryptChunk : String → List Nat → List Nat) (key : String)
    (plain : List Nat) : List Nat :=
  concatBytes ((chunks 117 plain).map (encryptChunk key))

/-- Modelled from the spec: the message of the pre-authorization configuration
guard ("RSA public key is required for pre-authorization operations"). -/
def preAuthGuardMsg : String :=
  "RSA public key is required for pre-authorization operations"

/-- Modelled from the spec: the common shape of the three pre-authorization
build methods.  Building without a configured asymmetric public key fails with
`ConfigurationError` before any hashing or encryption; otherwise the sensitive
serialized sub-payload is chunk-encrypted into `merchant_auth`, and the signed
sequence is the encrypted value, then the request timestamp, then the merchant
id. -/
def buildPreAuthPayload (pc : PreAuthClient) (encryptChunk : String → List Nat → List Nat)
    (path : String) (sensitive : String) (d : Date) :
    Except BuildError PayloadBuilderResponse :=
  match pc.rsa_public_key with
  | none => .error (.configurationError preAuthGuardMsg)
  | some key =>
    let merchant_auth := base64Encode (encryptChunked encryptChunk key (utf8 sensitive))
    let req_time := formatTs d
    let hash := create_hash pc.client [merchant_auth, req_time, pc.client.merchant_id]
    .ok
      { fields := [("req_time", req_time), ("merchant_id", pc.client.merchant_id),
                   ("merchant_auth", merchant_auth), ("hash", hash)],
        hash := hash,
        url := pc.client.base_url ++
          "api/merchant-portal/merchant-access/online-transaction/" ++ path,
        method := "POST" }

/-- Modelled from the spec: canonical serialization of the sensitive pre-auth
sub-payload (transaction id, completion amount, and the payout distribution
for the payout variant). -/
def preAuthSensitive (tran_id : String) (complete_amount : Option JsVal)
    (payout : Option String) : String :=
  "\x7b\"tran_id\":" ++ jsonStr tran_id ++
  (match complete_amount with
   | some a => ",\"complete_amount\":" ++ jsString a
   | none => "") ++
  (match payout with
   | some po => ",\"payout\":" ++ jsonStr po
   | none => "") ++ "\x7d"

/-- Modelled from the spec: `buildCompletePreAuthPayload`. -/
def buildCompletePreAuthPayload (pc : PreAuthClient)
    (encryptChunk : String → List Nat → List Nat) (tran_id : String)
    (complete_amount : JsVal) (d : Date) : Except BuildError PayloadBuilderResponse :=
  buildPreAuthPayload pc encryptChunk "pre-auth-completion"
    (preAuthSensitive tran_id (some complete_amount) none) d

/-- Modelled from the spec: `buildCompletePreAuthWithPayoutPayload`. -/
def buildCompletePreAuthWithPayoutPayload (pc : PreAuthClient)
    (encryptChunk : String → List Nat → List Nat) (tran_id : String)
    (complete_amount : JsVal) (payout : String) (d : Date) :
    Except BuildError PayloadBuilderResponse :=
  buildPreAuthPayload pc encryptChunk "pre-auth-completion-with-payout"
    (preAuthSensitive tran_id (some complete_amount) (some payout)) d

/-- Modelled from the spec: `buildCancelPreAuthPayload`. -/
def buildCancelPreAuthPayload (pc : PreAuthClient)
    (encryptChunk : String → List Nat → List Nat) (tran_id : String) (d : Date) :
    Except BuildError PayloadBuilderResponse :=
  buildPreAuthPayload pc encryptChunk "pre-auth-cancellation"
    (preAuthSensitive tran_id none none) d

/-! ## Concrete instances used by witnesses -/

/-- A concrete client instance. -/
def wClient : Client := ⟨"https://checkout-sandbox.payway.com.kh/", "m1", "k1"⟩

/-- A concrete build date. -/
def wDate : Date := ⟨2024, 1, 2, 3, 4, 5⟩

/-- A concrete payload with the HTML-returning payment option. -/
def wAbapayPayload : PayloadBuilderResponse :=
  { fields := [("tran_id", "T-1"), ("payment_option", "abapay")],
    hash := "h",
    url := "https://checkout-sandbox.payway.com.kh/api/payment-gateway/v1/payments/purchase",
    method := "POST" }

/-- A concrete payload without the HTML-returning payment option. -/
def wCheckPayload : PayloadBuilderResponse :=
  { fields := [("tran_id", "T-1")],
    hash := "h",
    url := "https://checkout-sandbox.payway.com.kh/api/payment-gateway/v1/payments/check-transaction",
    method := "POST" }

/-- A transport double answering HTTP 500 with a JSON error body. -/
def wErrTransport : Transport :=
  fun _ _ _ =>
    { status := 500, statusText := "Internal Server Error",
      contentType := "application/json",
      body := "\x7b\"error\":\"server\"\x7d", jsonParses := true }

/-- A transport double answering HTTP 500 with a different status text and a
different, non-JSON body. -/
def wErrTransport2 : Transport :=
  fun _ _ _ =>
    { status := 500, statusText := "Totally Different Text",
      contentType := "text/plain", body := "some other body", jsonParses := false }

/-- A transport double answering 200 OK with a JSON body. -/
def wOkTransport : Transport :=
  fun _ _ _ =>
    { status := 200, statusText := "OK", contentType := "application/json",
      body := "\x7b\"status\":\"ok\"\x7d", jsonParses := true }

/-! ## Record lemmas -/

/-- The stringified non-null part of a body, as it appears inside `fields`. -/
def fieldsOfBody (body : List (String × JsVal)) : List (String × String) :=
  (body.filter (fun kv => kv.2 ≠ JsVal.vnull)).map (fun kv => (kv.1, jsString kv.2))

theorem hasKey_eq_false (fs : List (String × String)) (k : String)
    (h : k ∉ fs.map (fun kv => kv.1)) : hasKey fs k = false := by
  simp only [hasKey, List.any_eq_false, beq_iff_eq]
  intro kv hkv hk
  exact h (List.mem_map.2 ⟨kv, hkv, hk⟩)

theorem setField_append (fs : List (String × String)) (k v : String)
    (h : k ∉ fs.map (fun kv => kv.1)) : setField fs k v = fs ++ [(k, v)] := by
  simp [setField, hasKey_eq_false fs k h]

theorem keys_setField_subset (fs : List (String × String)) (k v k' : String)
    (h : k' ∈ (setField fs k v).map (fun kv => kv.1)) :
    k' ∈ fs.map (fun kv => kv.1) ∨ k' = k := by
  unfold setField at h
  split at h
  · rcases List.mem_map.1 h with ⟨kv, hkv, heq⟩
    rcases List.mem_map.1 hkv with ⟨kv0, hkv0, heq0⟩
    by_cases hk : kv0.1 = k
    · right; rw [← heq, ← heq0]; simp [hk]
    · left
      refine List.mem_map.2 ⟨kv0, hkv0, ?_⟩
      rw [← heq, ← heq0]; simp [hk]
  · rw [List.map_append] at h
    rcases List.mem_append.1 h with h1 | h2
    · exact Or.inl h1
    · right; simpa using h2

theorem lookupField_append (l1 l2 : List (String × String)) (k : String) :
    lookupField (l1 ++ l2) k =
      match lookupField l1 k with
      | some v => some v
      | none => lookupField l2 k := by
  induction l1 with
  | nil => simp [lookupField]
  | cons kv l1 ih =>
    by_cases hk : kv.1 = k
    · simp [lookupField, List.find?, hk]
    · simp only [List.cons_append, lookupField, List.find?] at *
      rw [show (kv.1 == k) = false by simpa using hk]
      exact ih

theorem lookupField_eq_none (fs : List (String × String)) (k : String)
    (h : k ∉ fs.map (fun kv => kv.1)) : lookupField fs k = none := by
  have hf : List.find? (fun kv => kv.1 == k) fs = none := by
    rw [List.find?_eq_none]
    intro kv hkv
    simp only [beq_iff_eq]
    intro hk
    exact h (List.mem_map.2 ⟨kv, hkv, hk⟩)
  simp [lookupField, hf]

theorem lookupField_append_right (l1 l2 : List (String × String)) (k : String)
    (h : k ∉ l1.map (fun kv => kv.1)) :
    lookupField (l1 ++ l2) k = lookupField l2 k := by
  rw [lookupField_append, lookupField_eq_none l1 k h]

theorem lookupField_append_left (l1 l2 : List (String × String)) (k : String) (v : String)
    (h : lookupField l1 k = some v) :
    lookupField (l1 ++ l2) k = some v := by
  rw [lookupField_append, h]

theorem lookupField_overwrite (fs : List (String × String)) (k v k' : String)
    (h : k' ≠ k) :
    lookupField (fs.map (fun kv => if kv.1 == k then (k, v) else kv)) k' =
      lookupField fs k' := by
  induction fs with
  | nil => rfl
  | cons kv fs ih =>
    simp only [List.map_cons]
    by_cases hk : kv.1 = k
    · have h1 : (if (kv.1 == k) = true then (k, v) else kv) = (k, v) := by simp [hk]
      rw [h1]
      simp only [lookupField, List.find?]
      rw [show (k == k') = false from by simpa using Ne.symm h]
      rw [show (kv.1 == k') = false from by rw [hk]; simpa using Ne.symm h]
      exact ih
    · have h1 : (if (kv.1 == k) = true then (k, v) else kv) = kv := by simp [hk]
      rw [h1]
      simp only [lookupField, List.find?]
      cases hkv' : (kv.1 == k') with
      | true => rfl
      | false => exact ih

theorem lookupField_setField_ne (fs : List (String × String)) (k v k' : String)
    (h : k' ≠ k) : lookupField (setField fs k v) k' = lookupField fs k' := by
  unfold setField
  split
  · exact lookupField_overwrite fs k v k' h
  · rw [lookupField_append]
    have h1 : lookupField [(k, v)] k' = none := by
      simp [lookupField, List.find?, show (k == k') = false from by simpa using Ne.symm h]
    rw [h1]
    cases lookupField fs k' <;> rfl

theorem addFields_eq_append (l : List (String × JsVal)) :
    ∀ fs : List (String × String), (∀ kv ∈ l, kv.1 ∉ fs.map (fun kv => kv.1)) →
    (l.map (fun kv => kv.1)).Nodup →
    addFields fs l = fs ++ l.map (fun kv => (kv.1, jsString kv.2)) := by
  induction l with
  | nil => intro fs _ _; simp [addFields]
  | cons kv rest ih =>
    intro fs hfresh hnd
    simp only [addFields]
    rw [setField_append fs kv.1 (jsString kv.2) (hfresh kv (List.mem_cons_self _ _))]
    have hnd' : (rest.map (fun kv => kv.1)).Nodup := (List.nodup_cons.1 (by simpa using hnd)).2
    have hknot : kv.1 ∉ rest.map (fun kv => kv.1) := (List.nodup_cons.1 (by simpa using hnd)).1
    rw [ih (fs ++ [(kv.1, jsString kv.2)]) ?_ hnd']
    · simp
    · intro kv' hkv' hmem
      rw [List.map_append] at hmem
      rcases List.mem_append.1 hmem with h1 | h2
      · exact hfresh kv' (List.mem_cons_of_mem _ hkv') h1
      · simp only [List.map_cons, List.map_nil, List.mem_singleton] at h2
        exact hknot (h2 ▸ List.mem_map.2 ⟨kv', hkv', rfl⟩)

theorem keys_addFields_subset (l : List (String × JsVal)) :
    ∀ (fs : List (String × String)) (k' : String),
    k' ∈ (addFields fs l).map (fun kv => kv.1) →
    k' ∈ fs.map (fun kv => kv.1) ∨ k' ∈ l.map (fun kv => kv.1) := by
  induction l with
  | nil => intro fs k' h; exact Or.inl h
  | cons kv rest ih =>
    intro fs k' h
    rcases ih (setField fs kv.1 (jsString kv.2)) k' h with h1 | h2
    · rcases keys_setField_subset fs kv.1 (jsString kv.2) k' h1 with h3 | h4
      · exact Or.inl h3
      · exact Or.inr (by simp [h4])
    · exact Or.inr (List.mem_cons_of_mem _ h2)

/-! ## Normal form of `create_payload` -/

theorem filter_keys_subset (body : List (String × JsVal)) (k : String)
    (h : k ∈ ((body.filter (fun kv => kv.2 ≠ JsVal.vnull)).map
      (fun kv => (kv.1, jsString kv.2))).map (fun kv => kv.1)) :
    k ∈ body.map (fun kv => kv.1) := by
  rcases List.mem_map.1 h with ⟨kv, hkv, heq⟩
  rcases List.mem_map.1 hkv with ⟨kv0, hkv0, heq0⟩
  refine List.mem_map.2 ⟨kv0, List.mem_of_mem_filter hkv0, ?_⟩
  rw [← heq, ← heq0]

theorem jsfilter_keys_subset (body : List (String × JsVal)) (k : String)
    (h : k ∈ (body.filter (fun kv => kv.2 ≠ JsVal.vnull)).map (fun kv => kv.1)) :
    k ∈ body.map (fun kv => kv.1) := by
  rcases List.mem_map.1 h with ⟨kv, hkv, heq⟩
  exact List.mem_map.2 ⟨kv, List.mem_of_mem_filter hkv, heq⟩

theorem create_payload_eq (c : Client) (body : List (String × JsVal)) (d : Date)
    (hn : (body.map (fun kv => kv.1)).Nodup)
    (hr : "req_time" ∉ body.map (fun kv => kv.1))
    (hm : "merchant_id" ∉ body.map (fun kv => kv.1))
    (hh : "hash" ∉ body.map (fun kv => kv.1)) :
    create_payload c body d =
      [("req_time", formatTs d), ("merchant_id", c.merchant_id)] ++ fieldsOfBody body ++
      [("hash", create_hash c ([formatTs d, c.merchant_id] ++
        (body.filter (fun kv => kv.2 ≠ JsVal.vnull)).map (fun kv => jsString kv.2)))] := by
  unfold create_payload fieldsOfBody
  set bf := body.filter (fun kv => kv.2 ≠ JsVal.vnull) with hbf
  have hsub : ∀ k, k ∈ bf.map (fun kv => kv.1) → k ∈ body.map (fun kv => kv.1) := by
    intro k hk
    exact jsfilter_keys_subset body k (hbf ▸ hk)
  have hnd : (bf.map (fun kv => kv.1)).Nodup :=
    List.Nodup.sublist (List.Sublist.map _ (List.filter_sublist body)) hn
  have hadd : addFields [("req_time", formatTs d), ("merchant_id", c.merchant_id)] bf =
      [("req_time", formatTs d), ("merchant_id", c.merchant_id)] ++
        bf.map (fun kv => (kv.1, jsString kv.2)) := by
    apply addFields_eq_append bf _ _ hnd
    intro kv hkv hmem
    simp only [List.map_cons, List.map_nil, List.mem_cons, List.not_mem_nil, or_false,
      List.mem_singleton] at hmem
    have hk : kv.1 ∈ body.map (fun kv => kv.1) :=
      hsub kv.1 (List.mem_map.2 ⟨kv, hkv, rfl⟩)
    rcases hmem with h1 | h1
    · exact hr (h1 ▸ hk)
    · exact hm (h1 ▸ hk)
  have hnothash : "hash" ∉ ([("req_time", formatTs d), ("merchant_id", c.merchant_id)] ++
      bf.map (fun kv => (kv.1, jsString kv.2))).map (fun kv => kv.1) := by
    intro hmem
    rw [List.map_append] at hmem
    rcases List.mem_append.1 hmem with h1 | h1
    · simp at h1
    · exact hh (hsub _ (by
        rcases List.mem_map.1 h1 with ⟨kv, hkv, heq⟩
        rcases List.mem_map.1 hkv with ⟨kv0, hkv0, heq0⟩
        exact List.mem_map.2 ⟨kv0, hkv0, by rw [← heq, ← heq0]⟩))
  rw [hadd, setField_append _ _ _ hnothash]

theorem create_payload_lookup_hash (c : Client) (body : List (String × JsVal)) (d : Date)
    (hh : "hash" ∉ body.map (fun kv => kv.1)) :
    lookupField (create_payload c body d) "hash" =
      some (create_hash c ([formatTs d, c.merchant_id] ++
        (body.filter (fun kv => kv.2 ≠ JsVal.vnull)).map (fun kv => jsString kv.2))) := by
  unfold create_payload
  have hkeys : "hash" ∉ (addFields [("req_time", formatTs d), ("merchant_id", c.merchant_id)]
      (body.filter (fun kv => kv.2 ≠ JsVal.vnull))).map (fun kv => kv.1) := by
    intro hmem
    rcases keys_addFields_subset _ _ _ hmem with h1 | h1
    · simp at h1
    · exact hh (jsfilter_keys_subset body _ h1)
  rw [setField_append _ _ _ hkeys, lookupField_append_right _ _ _ hkeys]
  simp [lookupField, List.find?]

/-! ## Builder-level lemmas -/

theorem txBody_keys (p : CreateTransactionParams) :
    (txBody p).map (fun kv => kv.1) =
      ["tran_id", "amount", "items", "shipping", "firstname", "lastname", "email",
       "phone", "type", "payment_option", "return_url", "cancel_url",
       "continue_success_url", "return_deeplink", "currency", "custom_fields",
       "return_params", "payout", "lifetime", "additional_params",
       "google_play_token", "skip_success_page"] := rfl

theorem listBody_keys (p : TransactionListParams) :
    (listBody p).map (fun kv => kv.1) =
      ["from_date", "to_date", "from_amount", "to_amount", "status"] := rfl

theorem keys_create_payload_subset (c : Client) (body : List (String × JsVal)) (d : Date)
    (k : String) (h : k ∈ (create_payload c body d).map (fun kv => kv.1)) :
    k = "req_time" ∨ k = "merchant_id" ∨ k = "hash" ∨
      k ∈ (body.filter (fun kv => kv.2 ≠ JsVal.vnull)).map (fun kv => kv.1) := by
  unfold create_payload at h
  rcases keys_setField_subset _ _ _ _ h with h1 | h1
  · rcases keys_addFields_subset _ _ _ h1 with h2 | h2
    · simp only [List.map_cons, List.map_nil, List.mem_cons, List.not_mem_nil,
        or_false, List.mem_singleton] at h2
      rcases h2 with h3 | h3
      · exact Or.inl h3
      · exact Or.inr (Or.inl h3)
    · exact Or.inr (Or.inr (Or.inr h2))
  · exact Or.inr (Or.inr (Or.inl h1))

theorem lookupField_addPostSignFields_ne (p : CreateTransactionParams)
    (fs : List (String × String)) (k : String) (hv : k ≠ "view_type") (ht : k ≠ "type") :
    lookupField (addPostSignFields p fs) k = lookupField fs k := by
  unfold addPostSignFields
  split
  · rw [lookupField_setField_ne _ _ _ _ ht]
    split
    · rw [lookupField_setField_ne _ _ _ _ hv]
    · rfl
  · split
    · rw [lookupField_setField_ne _ _ _ _ hv]
    · rfl

theorem view_type_not_in_txPayload (c : Client) (p : CreateTransactionParams) (d : Date) :
    "view_type" ∉ (create_payload c (txBody p) d).map (fun kv => kv.1) := by
  intro h
  rcases keys_create_payload_subset c _ d _ h with h1 | h1 | h1 | h1
  · exact absurd h1 (by decide)
  · exact absurd h1 (by decide)
  · exact absurd h1 (by decide)
  · have h2 : "view_type" ∈ (txBody p).map (fun kv => kv.1) :=
      jsfilter_keys_subset _ _ h1
    rw [txBody_keys] at h2
    exact absurd h2 (by decide)

theorem txFields_lookup_hash (c : Client) (p : CreateTransactionParams) (d : Date) :
    lookupField (txFields c p d) "hash" =
      some (create_hash c ([formatTs d, c.merchant_id] ++
        ((txBody p).filter (fun kv => kv.2 ≠ JsVal.vnull)).map (fun kv => jsString kv.2))) := by
  unfold txFields
  rw [lookupField_addPostSignFields_ne p _ _ (by decide) (by decide)]
  apply create_payload_lookup_hash
  rw [txBody_keys]
  decide

theorem tx_hash_value (c : Client) (p : CreateTransactionParams) (d : Date) :
    (buildTransactionPayload c p d).hash =
      create_hash c ([formatTs d, c.merchant_id] ++
        ((txBody p).filter (fun kv => kv.2 ≠ JsVal.vnull)).map (fun kv => jsString kv.2)) := by
  have h : (buildTransactionPayload c p d).hash =
      (lookupField (txFields c p d) "hash").getD "" := rfl
  rw [h, txFields_lookup_hash, Option.getD_some]

theorem fieldsOfBody_cons (kv : String × JsVal) (l : List (String × JsVal)) :
    fieldsOfBody (kv :: l) =
      if kv.2 = JsVal.vnull then fieldsOfBody l
      else (kv.1, jsString kv.2) :: fieldsOfBody l := by
  by_cases h : kv.2 = JsVal.vnull
  · rw [if_pos h]
    unfold fieldsOfBody
    rw [List.filter_cons, if_neg (by simp [h])]
  · rw [if_neg h]
    unfold fieldsOfBody
    rw [List.filter_cons, if_pos (by simpa using h)]
    rfl

theorem lookupField_fieldsOfBody (l1 l2 : List (String × JsVal)) (k : String) (v : JsVal)
    (hl1 : ∀ kv ∈ l1, kv.1 ≠ k) (hv : v ≠ JsVal.vnull) :
    lookupField (fieldsOfBody (l1 ++ (k, v) :: l2)) k = some (jsString v) := by
  induction l1 with
  | nil =>
    rw [List.nil_append, fieldsOfBody_cons, if_neg hv]
    simp [lookupField, List.find?]
  | cons kv l1 ih =>
    have hk : kv.1 ≠ k := hl1 kv (List.mem_cons_self _ _)
    rw [List.cons_append, fieldsOfBody_cons]
    have ih' := ih (fun kv' h => hl1 kv' (List.mem_cons_of_mem _ h))
    split
    · exact ih'
    · simp only [lookupField, List.find?]
      rw [show (kv.1 == k) = false from by simpa using hk]
      exact ih'

theorem lookupField_create_payload_mem (c : Client) (body : List (String × JsVal)) (d : Date)
    (l1 l2 : List (String × JsVal)) (k : String) (v : JsVal)
    (hn : (body.map (fun kv => kv.1)).Nodup)
    (hrb : "req_time" ∉ body.map (fun kv => kv.1))
    (hmb : "merchant_id" ∉ body.map (fun kv => kv.1))
    (hhb : "hash" ∉ body.map (fun kv => kv.1))
    (hsplit : body = l1 ++ (k, v) :: l2)
    (hl1 : ∀ kv ∈ l1, kv.1 ≠ k) (hv : v ≠ JsVal.vnull)
    (hr : k ≠ "req_time") (hm : k ≠ "merchant_id") :
    lookupField (create_payload c body d) k = some (jsString v) := by
  rw [create_payload_eq c body d hn hrb hmb hhb]
  rw [lookupField_append]
  rw [lookupField_append_right _ _ k (by
    intro hmem
    simp only [List.map_cons, List.map_nil, List.mem_cons, List.not_mem_nil,
      or_false, List.mem_singleton] at hmem
    rcases hmem with h1 | h1
    · exact hr h1
    · exact hm h1)]
  rw [hsplit, lookupField_fieldsOfBody l1 l2 k v hl1 hv]

theorem tx_lookup_included (c : Client) (p : CreateTransactionParams) (d : Date)
    (l1 l2 : List (String × JsVal)) (k : String) (v : JsVal)
    (hsplit : txBody p = l1 ++ (k, v) :: l2)
    (hl1 : ∀ kv ∈ l1, kv.1 ≠ k) (hv : v ≠ JsVal.vnull)
    (hkv : k ≠ "view_type") (hkt : k ≠ "type")
    (hr : k ≠ "req_time") (hm : k ≠ "merchant_id") :
    lookupField (txFields c p d) k = some (jsString v) := by
  unfold txFields
  rw [lookupField_addPostSignFields_ne p _ k hkv hkt]
  exact lookupField_create_payload_mem c (txBody p) d l1 l2 k v
    (by rw [txBody_keys]; decide) (by rw [txBody_keys]; decide)
    (by rw [txBody_keys]; decide) (by rw [txBody_keys]; decide)
    hsplit hl1 hv hr hm

theorem lookup_view_type_some (c : Client) (p : CreateTransactionParams) (d : Date)
    (hv : p.view_type ≠ JsVal.vnull) :
    lookupField (txFields c p d) "view_type" = some (jsString p.view_type) := by
  have hnot := view_type_not_in_txPayload c p d
  have hbase : lookupField (setField (create_payload c (txBody p) d) "view_type"
      (jsString p.view_type)) "view_type" = some (jsString p.view_type) := by
    rw [setField_append _ _ _ hnot, lookupField_append_right _ _ _ hnot]
    simp [lookupField, List.find?]
  unfold txFields addPostSignFields
  rw [if_pos hv]
  by_cases ht : p.type ≠ JsVal.vnull
  · rw [if_pos ht, lookupField_setField_ne _ _ _ _ (by decide)]
    exact hbase
  · rw [if_neg ht]
    exact hbase

theorem lookup_view_type_none (c : Client) (p : CreateTransactionParams) (d : Date)
    (hv : p.view_type = JsVal.vnull) :
    lookupField (txFields c p d) "view_type" = none := by
  have hnot := view_type_not_in_txPayload c p d
  unfold txFields addPostSignFields
  rw [if_neg (show ¬ (p.view_type ≠ JsVal.vnull) from by simp [hv])]
  by_cases ht : p.type ≠ JsVal.vnull
  · rw [if_pos ht, lookupField_setField_ne _ _ _ _ (by decide)]
    exact lookupField_eq_none _ _ hnot
  · rw [if_neg ht]
    exact lookupField_eq_none _ _ hnot

theorem lookupField_fieldsOfBody_skip (kv : String × JsVal) (l : List (String × JsVal))
    (k : String) (h : kv.1 ≠ k) :
    lookupField (fieldsOfBody (kv :: l)) k = lookupField (fieldsOfBody l) k := by
  rw [fieldsOfBody_cons]
  split
  · rfl
  · simp only [lookupField, List.find?]
    rw [show (kv.1 == k) = false from by simpa using h]

theorem lookupField_fieldsOfBody_hit (k : String) (v : JsVal) (l : List (String × JsVal))
    (h2 : v ≠ JsVal.vnull) :
    lookupField (fieldsOfBody ((k, v) :: l)) k = some (jsString v) := by
  rw [fieldsOfBody_cons, if_neg h2]
  simp [lookupField, List.find?]

theorem tx_lookup_via_body (c : Client) (p : CreateTransactionParams) (d : Date) (k : String)
    (hkv : k ≠ "view_type") (hkt : k ≠ "type") (hr : k ≠ "req_time") (hm : k ≠ "merchant_id")
    (hh : k ≠ "hash") :
    lookupField (txFields c p d) k = lookupField (fieldsOfBody (txBody p)) k := by
  unfold txFields
  rw [lookupField_addPostSignFields_ne p _ k hkv hkt]
  rw [create_payload_eq c (txBody p) d (by rw [txBody_keys]; decide)
    (by rw [txBody_keys]; decide) (by rw [txBody_keys]; decide) (by rw [txBody_keys]; decide)]
  rw [lookupField_append]
  have h2 : ∀ v : String, lookupField [("hash", v)] k = none := by
    intro v
    simp [lookupField, List.find?, show ("hash" == k) = false from by simpa using Ne.symm hh]
  rw [h2]
  rw [lookupField_append_right _ _ _ (by simp [hr, hm])]
  cases lookupField (fieldsOfBody (txBody p)) k <;> rfl

/-! ## Claim theorems -/

/-- C1: For every build operation, the signature stored under the hash key
equals the base64 encoding of the HMAC-SHA512, keyed with the client's API
secret, of the separator-free concatenation of the ordered value sequence
whose first value is the `yyyyMMddHHmmss` request timestamp generated at build
time, whose second value is the configured merchant identifier, and whose
remaining values are the included (non-null) operation parameters coerced to
string form.  Stated over `create_payload`, the signing path every build
method goes through, for any operation body whose parameter keys avoid the
reserved hash key. -/
theorem c1_signature_is_hmac_sha512 (c : Client) (body : List (String × JsVal)) (d : Date)
    (hh : "hash" ∉ body.map (fun kv => kv.1)) :
    lookupField (create_payload c body d) "hash" =
      some (base64Encode (hmacSha512 (utf8 c.api_key) (utf8 (String.join
        ([formatTs d, c.merchant_id] ++
         (body.filter (fun kv => kv.2 ≠ JsVal.vnull)).map (fun kv => jsString kv.2)))))) := by
  rw [create_payload_lookup_hash c body d hh]
  rfl

/-- Witness for C1 at a concrete client, body and date. -/
theorem c1_signature_is_hmac_sha512_witness :
    "hash" ∉ ([("tran_id", JsVal.vstr "ORDER-123")]).map (fun kv => kv.1) ∧
    lookupField (create_payload wClient [("tran_id", JsVal.vstr "ORDER-123")] wDate) "hash" =
      some (base64Encode (hmacSha512 (utf8 wClient.api_key) (utf8 (String.join
        ([formatTs wDate, wClient.merchant_id] ++
         ([("tran_id", JsVal.vstr "ORDER-123")].filter
           (fun kv => kv.2 ≠ JsVal.vnull)).map (fun kv => jsString kv.2)))))) :=
  ⟨by decide, c1_signature_is_hmac_sha512 wClient [("tran_id", JsVal.vstr "ORDER-123")] wDate
    (by decide)⟩

/-- C2: For every call to `buildTransactionPayload`, the signed value sequence
after the timestamp and merchant id consists of exactly the included values of
tran_id, amount, items, shipping, firstname, lastname, email, phone, type,
payment_option, return_url (base64-encoded), cancel_url (base64-encoded),
continue_success_url (base64-encoded), return_deeplink (base64-encoded, a
structured deeplink record is serialized to JSON first), currency,
custom_fields, return_params, payout, lifetime, additional_params,
google_play_token, skip_success_page, in that order; and the payload's url is
the base URL followed by `api/payment-gateway/v1/payments/purchase`. -/
theorem c2_transaction_signed_sequence (c : Client) (p : CreateTransactionParams) (d : Date) :
    lookupField (buildTransactionPayload c p d).fields "hash" =
      some (create_hash c ([formatTs d, c.merchant_id] ++
        (([("tran_id", p.tran_id), ("amount", p.amount), ("items", p.items),
           ("shipping", p.shipping), ("firstname", trim p.firstname),
           ("lastname", trim p.lastname), ("email", trim p.email),
           ("phone", trim p.phone), ("type", p.type),
           ("payment_option", p.payment_option),
           ("return_url", processUrl p.return_url),
           ("cancel_url", processUrl p.cancel_url),
           ("continue_success_url", processUrl p.continue_success_url),
           ("return_deeplink", processDeeplink p.return_deeplink),
           ("currency", p.currency), ("custom_fields", p.custom_fields),
           ("return_params", p.return_params), ("payout", p.payout),
           ("lifetime", p.lifetime), ("additional_params", p.additional_params),
           ("google_play_token", p.google_play_token),
           ("skip_success_page", p.skip_success_page)].filter
            (fun kv => kv.2 ≠ JsVal.vnull)).map (fun kv => jsString kv.2)))) ∧
    (buildTransactionPayload c p d).url =
      c.base_url ++ "api/payment-gateway/v1/payments/purchase" :=
  ⟨txFields_lookup_hash c p d, rfl⟩

/-- C5: For every build method and every input, the returned payload's
top-level hash equals the value stored under the hash key inside `fields`
(no drift), and its method is POST. -/
theorem c5_hash_drift_free (c : Client) (p : CreateTransactionParams) (tid : String)
    (lp : TransactionListParams) (d : Date) :
    (lookupField (buildTransactionPayload c p d).fields "hash" =
        some (buildTransactionPayload c p d).hash ∧
      (buildTransactionPayload c p d).method = "POST") ∧
    (lookupField (buildCheckTransactionPayload c tid d).fields "hash" =
        some (buildCheckTransactionPayload c tid d).hash ∧
      (buildCheckTransactionPayload c tid d).method = "POST") ∧
    (lookupField (buildTransactionListPayload c lp d).fields "hash" =
        some (buildTransactionListPayload c lp d).hash ∧
      (buildTransactionListPayload c lp d).method = "POST") := by
  refine ⟨⟨?_, rfl⟩, ⟨?_, rfl⟩, ⟨?_, rfl⟩⟩
  · simp only [buildTransactionPayload]
    rw [txFields_lookup_hash, Option.getD_some]
  · simp only [buildCheckTransactionPayload]
    rw [create_payload_lookup_hash c _ d (by simp), Option.getD_some]
  · simp only [buildTransactionListPayload]
    rw [create_payload_lookup_hash c _ d (by rw [listBody_keys]; decide), Option.getD_some]

/-- C6: A parameter whose value is null/undefined is dropped before signing:
the built record and its signature equal those of the same call with the
parameter omitted entirely, and (when the key is not otherwise used) the key is
absent from `fields`; concretely, omitting firstname and lastname from a
create-transaction call yields a payload with no firstname/lastname keys. -/
theorem c6_null_params_dropped (c : Client) (d : Date) (k : String)
    (l1 l2 : List (String × JsVal)) :
    create_payload c (l1 ++ (k, JsVal.vnull) :: l2) d = create_payload c (l1 ++ l2) d ∧
    ((k ∉ (l1 ++ l2).map (fun kv => kv.1) ∧ k ≠ "req_time" ∧ k ≠ "merchant_id" ∧
        k ≠ "hash") →
      lookupField (create_payload c (l1 ++ (k, JsVal.vnull) :: l2) d) k = none) ∧
    lookupField (buildTransactionPayload wClient
      { noParams with tran_id := JsVal.vstr "T-9", amount := JsVal.vint 5 } wDate).fields
      "firstname" = none ∧
    lookupField (buildTransactionPayload wClient
      { noParams with tran_id := JsVal.vstr "T-9", amount := JsVal.vint 5 } wDate).fields
      "lastname" = none := by
  have hfilter : (l1 ++ (k, JsVal.vnull) :: l2).filter (fun kv => kv.2 ≠ JsVal.vnull) =
      (l1 ++ l2).filter (fun kv => kv.2 ≠ JsVal.vnull) := by
    simp [List.filter_append, List.filter_cons]
  refine ⟨?_, ?_, by decide, by decide⟩
  · unfold create_payload
    rw [hfilter]
  · rintro ⟨hmem, hr, hm, hh⟩
    apply lookupField_eq_none
    intro hkey
    rcases keys_create_payload_subset c _ d _ hkey with h1 | h1 | h1 | h1
    · exact hr h1
    · exact hm h1
    · exact hh h1
    · rw [hfilter] at h1
      exact hmem (jsfilter_keys_subset _ _ h1)

/-- Witness for C6 discharging the hypothesis of its conditional conjunct. -/
theorem c6_null_params_dropped_witness :
    ("memo" ∉ ([("tran_id", JsVal.vstr "T-1")] ++
        [("amount", JsVal.vint 3)]).map (fun kv => kv.1) ∧
      "memo" ≠ "req_time" ∧ "memo" ≠ "merchant_id" ∧ "memo" ≠ "hash") ∧
    lookupField (create_payload wClient ([("tran_id", JsVal.vstr "T-1")] ++
      ("memo", JsVal.vnull) :: [("amount", JsVal.vint 3)]) wDate) "memo" = none :=
  ⟨by decide, (c6_null_params_dropped wClient wDate "memo" [("tran_id", JsVal.vstr "T-1")]
    [("amount", JsVal.vint 3)]).2.1 (by decide)⟩

/-- C7: With all other parameters and the build date held fixed, the display
mode `view_type` does not change the signature of `buildTransactionPayload`,
while it does change `fields`: a non-null `view_type` is present as a key of
`fields` (added after signing), and a null `view_type` leaves the key absent. -/
theorem c7_view_type_not_signed (c : Client) (p : CreateTransactionParams) (d : Date)
    (v : JsVal) (hv : v ≠ JsVal.vnull) :
    (buildTransactionPayload c { p with view_type := v } d).hash =
      (buildTransactionPayload c { p with view_type := JsVal.vnull } d).hash ∧
    lookupField (buildTransactionPayload c { p with view_type := v } d).fields
      "view_type" = some (jsString v) ∧
    lookupField (buildTransactionPayload c { p with view_type := JsVal.vnull } d).fields
      "view_type" = none := by
  refine ⟨?_, ?_, ?_⟩
  · rw [tx_hash_value, tx_hash_value]
    have hb : txBody { p with view_type := v } =
        txBody { p with view_type := JsVal.vnull } := rfl
    rw [hb]
  · simp only [buildTransactionPayload]
    exact lookup_view_type_some c { p with view_type := v } d hv
  · simp only [buildTransactionPayload]
    exact lookup_view_type_none c { p with view_type := JsVal.vnull } d rfl

/-- Witness for C7 at a concrete client, parameters, date and display mode. -/
theorem c7_view_type_not_signed_witness :
    JsVal.vstr "popup" ≠ JsVal.vnull ∧
    ((buildTransactionPayload wClient { noParams with view_type := JsVal.vstr "popup" }
        wDate).hash =
      (buildTransactionPayload wClient { noParams with view_type := JsVal.vnull }
        wDate).hash ∧
     lookupField (buildTransactionPayload wClient
        { noParams with view_type := JsVal.vstr "popup" } wDate).fields "view_type" =
      some (jsString (JsVal.vstr "popup")) ∧
     lookupField (buildTransactionPayload wClient
        { noParams with view_type := JsVal.vnull } wDate).fields "view_type" = none) :=
  ⟨by decide, c7_view_type_not_signed wClient noParams wDate (JsVal.vstr "popup") (by decide)⟩

/-- C8: In `buildTransactionPayload`, string-valued firstname, lastname, email
and phone are trimmed of leading and trailing whitespace before inclusion in
`fields` (and hence in the signed sequence), while non-string values pass
through the trimming step unchanged. -/
theorem c8_identity_fields_trimmed (c : Client) (p : CreateTransactionParams) (d : Date)
    (s1 s2 s3 s4 : String) :
    (lookupField (buildTransactionPayload c { p with
        firstname := JsVal.vstr s1, lastname := JsVal.vstr s2,
        email := JsVal.vstr s3, phone := JsVal.vstr s4 }
        d).fields "firstname" = some (jsTrim s1) ∧
     lookupField (buildTransactionPayload c { p with
        firstname := JsVal.vstr s1, lastname := JsVal.vstr s2,
        email := JsVal.vstr s3, phone := JsVal.vstr s4 }
        d).fields "lastname" = some (jsTrim s2) ∧
     lookupField (buildTransactionPayload c { p with
        firstname := JsVal.vstr s1, lastname := JsVal.vstr s2,
        email := JsVal.vstr s3, phone := JsVal.vstr s4 }
        d).fields "email" = some (jsTrim s3) ∧
     lookupField (buildTransactionPayload c { p with
        firstname := JsVal.vstr s1, lastname := JsVal.vstr s2,
        email := JsVal.vstr s3, phone := JsVal.vstr s4 }
        d).fields "phone" = some (jsTrim s4)) ∧
    (∀ v : JsVal, (∀ s : String, v ≠ JsVal.vstr s) → trim v = v) := by
  refine ⟨⟨?_, ?_, ?_, ?_⟩, ?_⟩
  · simp only [buildTransactionPayload]
    rw [tx_lookup_via_body _ _ _ _ (by decide) (by decide) (by decide) (by decide) (by decide)]
    simp only [txBody]
    rw [lookupField_fieldsOfBody_skip _ _ _ (by simp),
        lookupField_fieldsOfBody_skip _ _ _ (by simp),
        lookupField_fieldsOfBody_skip _ _ _ (by simp),
        lookupField_fieldsOfBody_skip _ _ _ (by simp),
        lookupField_fieldsOfBody_hit _ _ _ (by simp [trim])]
    simp [trim, jsString]
  · simp only [buildTransactionPayload]
    rw [tx_lookup_via_body _ _ _ _ (by decide) (by decide) (by decide) (by decide) (by decide)]
    simp only [txBody]
    rw [lookupField_fieldsOfBody_skip _ _ _ (by simp),
        lookupField_fieldsOfBody_skip _ _ _ (by simp),
        lookupField_fieldsOfBody_skip _ _ _ (by simp),
        lookupField_fieldsOfBody_skip _ _ _ (by simp),
        lookupField_fieldsOfBody_skip _ _ _ (by simp),
        lookupField_fieldsOfBody_hit _ _ _ (by simp [trim])]
    simp [trim, jsString]
  · simp only [buildTransactionPayload]
    rw [tx_lookup_via_body _ _ _ _ (by decide) (by decide) (by decide) (by decide) (by decide)]
    simp only [txBody]
    rw [lookupField_fieldsOfBody_skip _ _ _ (by simp),
        lookupField_fieldsOfBody_skip _ _ _ (by simp),
        lookupField_fieldsOfBody_skip _ _ _ (by simp),
        lookupField_fieldsOfBody_skip _ _ _ (by simp),
        lookupField_fieldsOfBody_skip _ _ _ (by simp),
        lookupField_fieldsOfBody_skip _ _ _ (by simp),
        lookupField_fieldsOfBody_hit _ _ _ (by simp [trim])]
    simp [trim, jsString]
  · simp only [buildTransactionPayload]
    rw [tx_lookup_via_body _ _ _ _ (by decide) (by decide) (by decide) (by decide) (by decide)]
    simp only [txBody]
    rw [lookupField_fieldsOfBody_skip _ _ _ (by simp),
        lookupField_fieldsOfBody_skip _ _ _ (by simp),
        lookupField_fieldsOfBody_skip _ _ _ (by simp),
        lookupField_fieldsOfBody_skip _ _ _ (by simp),
        lookupField_fieldsOfBody_skip _ _ _ (by simp),
        lookupField_fieldsOfBody_skip _ _ _ (by simp),
        lookupField_fieldsOfBody_skip _ _ _ (by simp),
        lookupField_fieldsOfBody_hit _ _ _ (by simp [trim])]
    simp [trim, jsString]
  · intro v hv
    cases v with
    | vnull => rfl
    | vstr s => exact absurd rfl (hv s)
    | vint n => rfl
    | vbool b => rfl
    | vdeeplink a i => rfl

/-- Witness for C8: the spec's example first name together with a non-string
value passing through `trim` unchanged. -/
theorem c8_identity_fields_trimmed_witness :
    jsTrim "  John  " = "John" ∧
    lookupField (buildTransactionPayload wClient { noParams with
      firstname := JsVal.vstr "  John  ", lastname := JsVal.vstr "Doe",
      email := JsVal.vstr " j@example.com ", phone := JsVal.vstr " 012 345 " }
      wDate).fields "firstname" = some (jsTrim "  John  ") ∧
    trim (JsVal.vint 7) = JsVal.vint 7 :=
  ⟨by decide,
   (c8_identity_fields_trimmed wClient noParams wDate "  John  " "Doe" " j@example.com "
     " 012 345 ").1.1,
   (c8_identity_fields_trimmed wClient noParams wDate "  John  " "Doe" " j@example.com "
     " 012 345 ").2 (JsVal.vint 7) (fun s h => JsVal.noConfusion h)⟩

/-- C4: For every payload whose fields carry payment_option "abapay", calling
`execute` with `allowHtml` false (the default) fails immediately with the
unsupported-operation guard error, before any network call: the transport is
invoked zero times. -/
theorem c4_abapay_guard_no_network (t : Transport) (payload : PayloadBuilderResponse)
    (h : lookupField payload.fields "payment_option" = some "abapay") :
    execute t payload false =
      (Except.error (ExecError.unsupportedOperation abapayGuardMsg), 0) := by
  unfold execute
  rw [if_pos ⟨h, rfl⟩]

/-- Witness for C4 at a concrete abapay payload and a transport double; the
recorded request count is zero. -/
theorem c4_abapay_guard_no_network_witness :
    lookupField wAbapayPayload.fields "payment_option" = some "abapay" ∧
    execute wOkTransport wAbapayPayload false =
      (Except.error (ExecError.unsupportedOperation abapayGuardMsg), 0) :=
  ⟨by decide, c4_abapay_guard_no_network wOkTransport wAbapayPayload (by decide)⟩

/-- C3 (code bug): on a non-2xx response, `execute` throws the plain error
message "HTTP error! status: N", which carries only the numeric status; two
responses with the same status but different status text and body produce the
identical error, and the response body is never read — contradicting the claim
(and the repository's own `docs/error-handling.md` and `PayWayAPIError`
declaration in `src/types.ts`, which promise status, statusText and the parsed
body on the thrown error). -/
theorem c3_non2xx_error_lacks_statusText_and_body :
    execute wErrTransport wCheckPayload false =
      (Except.error (ExecError.httpStatusError "HTTP error! status: 500"), 1) ∧
    execute wErrTransport2 wCheckPayload false =
      (Except.error (ExecError.httpStatusError "HTTP error! status: 500"), 1) ∧
    execute wErrTransport wCheckPayload false = execute wErrTransport2 wCheckPayload false := by
  refine ⟨?_, ?_, ?_⟩ <;> rfl

/-- C9: For a client constructed without an asymmetric (RSA) public key,
invoking any pre-authorization build method fails with the ConfigurationError
guard, before any hashing or encryption — the outcome does not depend on the
API secret or on the encryption primitive. -/
theorem c9_preauth_requires_asymmetric_key (base mid key key2 : String)
    (enc enc2 : String → List Nat → List Nat) (tran : String) (amt : JsVal)
    (po : String) (d : Date) :
    (buildCompletePreAuthPayload ⟨⟨base, mid, key⟩, none⟩ enc tran amt d =
        Except.error (BuildError.configurationError preAuthGuardMsg) ∧
      buildCompletePreAuthWithPayoutPayload ⟨⟨base, mid, key⟩, none⟩ enc tran amt po d =
        Except.error (BuildError.configurationError preAuthGuardMsg) ∧
      buildCancelPreAuthPayload ⟨⟨base, mid, key⟩, none⟩ enc tran d =
        Except.error (BuildError.configurationError preAuthGuardMsg)) ∧
    (buildCompletePreAuthPayload ⟨⟨base, mid, key⟩, none⟩ enc tran amt d =
        buildCompletePreAuthPayload ⟨⟨base, mid, key2⟩, none⟩ enc2 tran amt d ∧
      buildCompletePreAuthWithPayoutPayload ⟨⟨base, mid, key⟩, none⟩ enc tran amt po d =
        buildCompletePreAuthWithPayoutPayload ⟨⟨base, mid, key2⟩, none⟩ enc2 tran amt po d ∧
      buildCancelPreAuthPayload ⟨⟨base, mid, key⟩, none⟩ enc tran d =
        buildCancelPreAuthPayload ⟨⟨base, mid, key2⟩, none⟩ enc2 tran d) :=
  ⟨⟨rfl, rfl, rfl⟩, ⟨rfl, rfl, rfl⟩⟩

/-- C10: `create_hash` depends only on the concatenation of its value list:
any two lists of strings with equal element-wise concatenation yield the same
signature under the same API key. -/
theorem c10_hash_depends_only_on_concat (c : Client) (l1 l2 : List String)
    (h : String.join l1 = String.join l2) : create_hash c l1 = create_hash c l2 := by
  unfold create_hash
  rw [h]

/-- Witness for C10: the value lists ["ab", "c"] and ["a", "bc"] yield
identical signatures. -/
theorem c10_hash_depends_only_on_concat_witness :
    String.join ["ab", "c"] = String.join ["a", "bc"] ∧
    create_hash wClient ["ab", "c"] = create_hash wClient ["a", "bc"] :=
  ⟨by decide, c10_hash_depends_only_on_concat wClient ["ab", "c"] ["a", "bc"] (by decide)⟩

set_option maxRecDepth 100000 in
/-- The repository's own golden test vector (tests/client.test.ts): with API
key "1", hashing the values a, b, c yields this exact base64 HMAC-SHA512
signature. -/
theorem create_hash_matches_repo_golden_vector :
    create_hash ⟨"http://example.com", "1", "1"⟩ ["a", "b", "c"] =
      "JcTO3d5PoVoVRPIWjUg9bTRrSTpFhu9JXOLm+nLjrmDatGZuSz9eDv323DX05K1r/BYx60AQVZ+GOWbTS4XUvw==" := by
  decide
